import Mathlib

/-!
Shallow embedding of the multi-level cache orchestrator from
pkg/cache-manager (multilevel.go, cache.go) and the in-process L1 tier
(BigCache wrapper with its 8-byte little-endian expiry-prefixed entry
encoding). Durations and timestamps are modelled as mathematical
integers standing for Go int64 nanosecond counts; byte payloads are
lists of naturals below 256 where byte structure matters and opaque
lists otherwise. Tier stores are abstracted as state-passing operation
records so that both faithful map-backed stores and failing stores can
instantiate the same orchestrator; each orchestrator call additionally
returns a trace of the effects it performed, in order.
-/

namespace CacheManager

/-- Raw byte payloads, as in Go []byte. -/
abbrev Bytes := List Nat

/-- Errors. The orchestrator aggregates a double write failure into a
combined error carrying both underlying failures, mirroring
fmt.Errorf in Set; every other error is a plain message. -/
inductive Err where
  | msg : String → Err
  | bothLevelsFailed : Err → Err → Err
deriving DecidableEq

def errSerializerMissing : Err := Err.msg "serializer is required"
def errModeL1RequiresL1 : Err := Err.msg "ModeL1Only requires L1 cache to be configured"
def errModeL2RequiresL2 : Err := Err.msg "ModeL2Only requires L2 cache to be configured"
def errModeBothRequiresBoth : Err := Err.msg "ModeBothLevels requires both L1 and L2 caches to be configured"
def errModeBothDefaultRequiresBoth : Err := Err.msg "ModeBothLevels default requires both L1 and L2 caches to be configured"
def errOnlyL1ButNotL1Only : Err := Err.msg "only L1 configured but mode is not ModeL1Only"
def errOnlyL2ButNotL2Only : Err := Err.msg "only L2 configured but mode is not ModeL2Only"
def errOverrideNotAllowed : Err := Err.msg "level overrides not allowed: both L1 and L2 must be configured to use TargetL1/TargetL2 options"
def errGetNoTarget : Err := Err.msg "Get operation requires at least one cache level to be checked"
def errSetNoTarget : Err := Err.msg "Set operation requires at least one cache level to be targeted"
def errL1NotConfigured : Err := Err.msg "L1 target requested but L1 cache not configured"
def errL2NotConfigured : Err := Err.msg "L2 target requested but L2 cache not configured"

/-- CacheMode is a Go int; the three declared constants follow iota. -/
def ModeBothLevels : Int := 0

def ModeL1Only : Int := 1

def ModeL2Only : Int := 2

/-- CacheOptions from cache.go: tristate per-tier target overrides and
per-tier TTL overrides (0 meaning use the default). -/
structure CacheOptions where
  targetL1 : Option Bool
  targetL2 : Option Bool
  l1TTL : Int
  l2TTL : Int
deriving DecidableEq

def CacheOptions.empty : CacheOptions := ⟨none, none, 0, 0⟩

/-- CacheOptions.normalize from cache.go: each tier independently keeps
the call-level TTL when positive and otherwise falls back to the
supplied default. -/
def CacheOptions.normalize (o : CacheOptions) (defaultL1 defaultL2 : Int) : Int × Int :=
  ((if o.l1TTL ≤ 0 then defaultL1 else o.l1TTL),
   (if o.l2TTL ≤ 0 then defaultL2 else o.l2TTL))

/-- A tier store (RawCache) abstracted as state-passing operations:
get may report a payload, a miss (none) or an error; set and delete
may report an error. -/
structure TierOps (σ : Type) where
  get : σ → String → σ × Except Err (Option Bytes)
  set : σ → String → Bytes → Int → σ × Option Err
  del : σ → String → σ × Option Err

/-- A serializer for values of type α (Marshal/Unmarshal). -/
structure Serializer (α : Type) where
  marshal : α → Except Err Bytes
  unmarshal : Bytes → Except Err α

/-- One observable interaction of an orchestrator call with a tier
store or with the serializer, recorded in call order. -/
inductive Effect where
  | l1Get : String → Effect
  | l1Set : String → Bytes → Int → Effect
  | l1Del : String → Effect
  | l2Get : String → Effect
  | l2Set : String → Bytes → Int → Effect
  | l2Del : String → Effect
  | serMarshal : Effect
  | serUnmarshal : Bytes → Effect
deriving DecidableEq

/-- The immutable orchestrator value built by NewMultiLevelCache.
Tier presence (the Go nil checks on m.l1 / m.l2) is the two Bool
fields; the stores themselves are passed to each operation. -/
structure MultiLevelCache where
  hasL1 : Bool
  hasL2 : Bool
  mode : Int
  allowOverrides : Bool
  warmupTTL : Int
  l1DefaultTTL : Int
  l2DefaultTTL : Int
deriving DecidableEq

/-- MultiLevelConfig: requested mode and the three TTL knobs. -/
structure MultiLevelConfig where
  mode : Int
  warmupTTL : Int
  l1DefaultTTL : Int
  l2DefaultTTL : Int
deriving DecidableEq

/-- 5 * time.Minute in nanoseconds, the construction-time TTL default. -/
def fiveMinutes : Int := 300000000000

/-- NewMultiLevelCache from multilevel.go: serializer presence check,
the mode switch (default branch normalising unknown modes to
ModeBothLevels), the strict single-level/mode match checks, then the
derived allowOverrides flag and TTL defaulting. -/
def NewMultiLevelCache (l1 l2 hasSerializer : Bool) (cfg : MultiLevelConfig) :
    Except Err MultiLevelCache :=
  if hasSerializer = false then Except.error errSerializerMissing
  else
    let vmode : Except Err Int :=
      if cfg.mode = ModeL1Only then
        (if l1 = false then Except.error errModeL1RequiresL1 else Except.ok ModeL1Only)
      else if cfg.mode = ModeL2Only then
        (if l2 = false then Except.error errModeL2RequiresL2 else Except.ok ModeL2Only)
      else if cfg.mode = ModeBothLevels then
        (if l1 = false ∨ l2 = false then Except.error errModeBothRequiresBoth
         else Except.ok ModeBothLevels)
      else
        (if l1 = false ∨ l2 = false then Except.error errModeBothDefaultRequiresBoth
         else Except.ok ModeBothLevels)
    match vmode with
    | Except.error e => Except.error e
    | Except.ok mode =>
      if l1 = true ∧ l2 = false ∧ mode ≠ ModeL1Only then Except.error errOnlyL1ButNotL1Only
      else if l1 = false ∧ l2 = true ∧ mode ≠ ModeL2Only then Except.error errOnlyL2ButNotL2Only
      else
        Except.ok ⟨l1, l2, mode, l1 && l2,
          (if cfg.warmupTTL ≤ 0 then fiveMinutes else cfg.warmupTTL),
          (if cfg.l1DefaultTTL ≤ 0 then fiveMinutes else cfg.l1DefaultTTL),
          (if cfg.l2DefaultTTL ≤ 0 then fiveMinutes else cfg.l2DefaultTTL)⟩

/-- determineCacheLevel from multilevel.go: mode defaults for (checkL1,
checkL2); the Go switch has no default branch so an out-of-range mode
yields (false, false). -/
def MultiLevelCache.determineCacheLevel (m : MultiLevelCache) : Bool × Bool :=
  if m.mode = ModeBothLevels then (true, true)
  else if m.mode = ModeL1Only then (true, false)
  else if m.mode = ModeL2Only then (false, true)
  else (false, false)

/-- applyEndpointLevelOverrides from multilevel.go: any set per-call
flag replaces the corresponding default. -/
def applyEndpointLevelOverrides (opts : CacheOptions) (checkL1 checkL2 : Bool) : Bool × Bool :=
  (opts.targetL1.getD checkL1, opts.targetL2.getD checkL2)

/-- Result of an orchestrator Get: the (found, error) pair of the Go
signature plus the value decoded into dest, when one was decoded. -/
structure GetResult (α : Type) where
  found : Bool
  err : Option Err
  dest : Option α
deriving DecidableEq

/-- The L2 half of Get (multilevel.go lines 183-223): the early miss
when L2 is not checked or absent, the L2 query, decode, and the
best-effort warmup guarded by checkL1, L1 presence, ModeBothLevels and
the absence of an explicit per-call L1 override. -/
def MultiLevelCache.getL2Phase {σ1 σ2 α : Type} (m : MultiLevelCache)
    (t1 : TierOps σ1) (t2 : TierOps σ2) (ser : Serializer α)
    (s1 : σ1) (s2 : σ2) (key : String) (opts : CacheOptions)
    (checkL1 checkL2 : Bool) :
    GetResult α × σ1 × σ2 × List Effect :=
  if checkL2 = false ∨ m.hasL2 = false then (⟨false, none, none⟩, s1, s2, [])
  else
    match t2.get s2 key with
    | (s2a, Except.error e) => (⟨false, some e, none⟩, s1, s2a, [Effect.l2Get key])
    | (s2a, Except.ok none) => (⟨false, none, none⟩, s1, s2a, [Effect.l2Get key])
    | (s2a, Except.ok (some data)) =>
      match ser.unmarshal data with
      | Except.error e =>
        (⟨false, some e, none⟩, s1, s2a, [Effect.l2Get key, Effect.serUnmarshal data])
      | Except.ok v =>
        if checkL1 = true ∧ m.hasL1 = true ∧ m.mode = ModeBothLevels ∧ opts.targetL1 = none then
          (⟨true, none, some v⟩, (t1.set s1 key data m.warmupTTL).1, s2a,
            [Effect.l2Get key, Effect.serUnmarshal data, Effect.l1Set key data m.warmupTTL])
        else
          (⟨true, none, some v⟩, s1, s2a, [Effect.l2Get key, Effect.serUnmarshal data])

/-- Get from multilevel.go: override permission check, mode defaults,
per-call overrides, target validation, the L1 probe and on a miss the
L2 phase. -/
def MultiLevelCache.get {σ1 σ2 α : Type} (m : MultiLevelCache)
    (t1 : TierOps σ1) (t2 : TierOps σ2) (ser : Serializer α)
    (s1 : σ1) (s2 : σ2) (key : String) (opts : CacheOptions) :
    GetResult α × σ1 × σ2 × List Effect :=
  if m.allowOverrides = false ∧ (opts.targetL1.isSome ∨ opts.targetL2.isSome) then
    (⟨false, some errOverrideNotAllowed, none⟩, s1, s2, [])
  else
    let c := applyEndpointLevelOverrides opts m.determineCacheLevel.1 m.determineCacheLevel.2
    if c.1 = false ∧ c.2 = false then (⟨false, some errGetNoTarget, none⟩, s1, s2, [])
    else if c.1 = true ∧ m.hasL1 = false then
      (⟨false, some errL1NotConfigured, none⟩, s1, s2, [])
    else if c.2 = true ∧ m.hasL2 = false then
      (⟨false, some errL2NotConfigured, none⟩, s1, s2, [])
    else if c.1 = true ∧ m.hasL1 = true then
      match t1.get s1 key with
      | (s1a, Except.error e) => (⟨false, some e, none⟩, s1a, s2, [Effect.l1Get key])
      | (s1a, Except.ok (some data)) =>
        (match ser.unmarshal data with
         | Except.error e =>
           (⟨false, some e, none⟩, s1a, s2, [Effect.l1Get key, Effect.serUnmarshal data])
         | Except.ok v =>
           (⟨true, none, some v⟩, s1a, s2, [Effect.l1Get key, Effect.serUnmarshal data]))
      | (s1a, Except.ok none) =>
        let r := m.getL2Phase t1 t2 ser s1a s2 key opts c.1 c.2
        (r.1, r.2.1, r.2.2.1, Effect.l1Get key :: r.2.2.2)
    else
      m.getL2Phase t1 t2 ser s1 s2 key opts c.1 c.2

/-- Set from multilevel.go: override permission check, marshal, TTL
normalisation, target computation and validation, independent writes
to the targeted tiers, then error aggregation (both targeted: fail
only when both writes failed, with a combined error; otherwise return
the single write error directly). -/
def MultiLevelCache.set {σ1 σ2 α : Type} (m : MultiLevelCache)
    (t1 : TierOps σ1) (t2 : TierOps σ2) (ser : Serializer α)
    (s1 : σ1) (s2 : σ2) (key : String) (v : α) (opts : CacheOptions) :
    Option Err × σ1 × σ2 × List Effect :=
  if m.allowOverrides = false ∧ (opts.targetL1.isSome ∨ opts.targetL2.isSome) then
    (some errOverrideNotAllowed, s1, s2, [])
  else
    match ser.marshal v with
    | Except.error e => (some e, s1, s2, [Effect.serMarshal])
    | Except.ok data =>
      let ttls := opts.normalize m.l1DefaultTTL m.l2DefaultTTL
      let tg := applyEndpointLevelOverrides opts m.determineCacheLevel.1 m.determineCacheLevel.2
      if tg.1 = false ∧ tg.2 = false then (some errSetNoTarget, s1, s2, [Effect.serMarshal])
      else if tg.1 = true ∧ m.hasL1 = false then
        (some errL1NotConfigured, s1, s2, [Effect.serMarshal])
      else if tg.2 = true ∧ m.hasL2 = false then
        (some errL2NotConfigured, s1, s2, [Effect.serMarshal])
      else
        let w1 := if tg.1 = true then
            ((t1.set s1 key data ttls.1).1, (t1.set s1 key data ttls.1).2,
              [Effect.l1Set key data ttls.1])
          else (s1, none, [])
        let w2 := if tg.2 = true then
            ((t2.set s2 key data ttls.2).1, (t2.set s2 key data ttls.2).2,
              [Effect.l2Set key data ttls.2])
          else (s2, none, [])
        let finalErr :=
          if tg.1 = true ∧ tg.2 = true then
            (match w1.2.1, w2.2.1 with
             | some e1, some e2 => some (Err.bothLevelsFailed e1 e2)
             | _, _ => none)
          else
            (match w1.2.1 with
             | some e1 => some e1
             | none => w2.2.1)
        (finalErr, w1.1, w2.1, Effect.serMarshal :: (w1.2.2 ++ w2.2.2))

/-- Delete from multilevel.go: attempts every configured tier
unconditionally (no mode consultation), remembers the first error and
still attempts the remaining tier, returns nil only when every
attempted delete succeeded. -/
def MultiLevelCache.delete {σ1 σ2 : Type} (m : MultiLevelCache)
    (t1 : TierOps σ1) (t2 : TierOps σ2) (s1 : σ1) (s2 : σ2) (key : String) :
    Option Err × σ1 × σ2 × List Effect :=
  let d1 := if m.hasL1 = true then
      ((t1.del s1 key).1, (t1.del s1 key).2, [Effect.l1Del key])
    else (s1, (none : Option Err), ([] : List Effect))
  let d2 := if m.hasL2 = true then
      ((t2.del s2 key).1, (t2.del s2 key).2, [Effect.l2Del key])
    else (s2, (none : Option Err), ([] : List Effect))
  let firstErr := match d1.2.1 with
    | some e => some e
    | none => d2.2.1
  (firstErr, d1.1, d2.1, d1.2.2 ++ d2.2.2)

/-- A faithful keyed byte store: the state backing an idealised tier
(and the byte map underlying the BigCache wrapper). -/
abbrev Store := String → Option Bytes

def Store.write (s : Store) (k : String) (v : Bytes) : Store :=
  fun q => if q = k then some v else s q

def Store.remove (s : Store) (k : String) : Store :=
  fun q => if q = k then none else s q

def Store.empty : Store := fun _ => none

/-- Tier operations for a store that stores and returns bytes
faithfully and never fails. -/
def mapTierOps : TierOps Store :=
  ⟨fun s k => (s, Except.ok (s k)),
   fun s k v _ => (s.write k v, none),
   fun s k => (s.remove k, none)⟩

/-- binary.LittleEndian.PutUint64: the eight little-endian bytes of a
64-bit word. -/
def u64toLE (n : Nat) : Bytes :=
  [n % 256, n / 256 % 256, n / 65536 % 256, n / 16777216 % 256,
   n / 4294967296 % 256, n / 1099511627776 % 256,
   n / 281474976710656 % 256, n / 72057594037927936 % 256]

/-- binary.LittleEndian.Uint64 on the first eight bytes (the caller
guarantees at least eight are present). -/
def leToU64 (b : Bytes) : Nat :=
  match b with
  | b0 :: b1 :: b2 :: b3 :: b4 :: b5 :: b6 :: b7 :: _ =>
      b0 + 256 * b1 + 65536 * b2 + 16777216 * b3 + 4294967296 * b4 +
      1099511627776 * b5 + 281474976710656 * b6 + 72057594037927936 * b7
  | _ => 0

/-- uint64(e) for an int64 value e: reduction modulo 2^64. -/
def int64ToU64 (e : Int) : Nat := (e % 18446744073709551616).toNat

/-- int64(u) for a 64-bit word u: two's-complement reinterpretation. -/
def u64ToInt64 (u : Nat) : Int :=
  if u < 9223372036854775808 then (u : Int) else (u : Int) - 18446744073709551616

/-- encodeEntry from the BigCache wrapper: an absolute expiry instant
(now + ttl when ttl is positive, 0 meaning no expiry) stored as an
8-byte little-endian word ahead of the payload. now is the int64
UnixNano clock reading at the time of the Set. -/
def encodeEntry (payload : Bytes) (ttl now : Int) : Bytes :=
  u64toLE (int64ToU64 (if 0 < ttl then now + ttl else 0)) ++ payload

/-- decodeEntry from the BigCache wrapper: records shorter than the
8-byte header decode to none; a positive stored expiry strictly in the
past decodes to none; otherwise the payload after the header. -/
def decodeEntry (raw : Bytes) (now : Int) : Option Bytes :=
  if raw.length < 8 then none
  else
    if 0 < u64ToInt64 (leToU64 raw) ∧ u64ToInt64 (leToU64 raw) < now then none
    else some (raw.drop 8)

namespace BigCache

/-- BigCache.Get: a missing underlying entry is a clean miss; an entry
that fails to decode (short or expired) is opportunistically deleted
and reported as a clean miss; otherwise the decoded payload is
returned. The underlying allegro bigcache is modelled as a faithful
byte map; now is the int64 UnixNano clock reading during the Get. -/
def get (s : Store) (key : String) (now : Int) :
    (Option Bytes × Bool × Option Err) × Store :=
  match s key with
  | none => ((none, false, none), s)
  | some raw =>
    match decodeEntry raw now with
    | none => ((none, false, none), s.remove key)
    | some payload => ((some payload, true, none), s)

/-- BigCache.Set: stores the TTL-prefixed encoding of the payload. -/
def set (s : Store) (key : String) (value : Bytes) (ttl now : Int) : Store :=
  s.write key (encodeEntry value ttl now)

/-- BigCache.Delete: removes the entry. -/
def del (s : Store) (key : String) : Store := s.remove key

end BigCache

/-- A concrete serializer on naturals used to instantiate witnesses:
a value n marshals to the singleton payload [n]. -/
def natSerializer : Serializer Nat :=
  ⟨fun n => Except.ok [n],
   fun b => match b with
     | [n] => Except.ok n
     | _ => Except.error (Err.msg "cannot decode payload")⟩

/-- A stateless tier whose get always answers r and whose set always
answers e: used to instantiate partial-failure scenarios. -/
def constTierOps (r : Except Err (Option Bytes)) (e : Option Err) : TierOps Unit :=
  ⟨fun s _ => (s, r), fun s _ _ _ => (s, e), fun s _ => (s, none)⟩

/-- A stateless tier whose delete always answers e. -/
def delTierOps (e : Option Err) : TierOps Unit :=
  ⟨fun s _ => (s, Except.ok none), fun s _ _ _ => (s, none), fun s _ => (s, e)⟩

/-- The instance built by NewMultiLevelCache with both tiers, a
serializer and the all-zero config. -/
def mBoth0 : MultiLevelCache := ⟨true, true, 0, true, fiveMinutes, fiveMinutes, fiveMinutes⟩

/-- The instance built by NewMultiLevelCache with both tiers, a
serializer and mode ModeL1Only. -/
def mL1OnlyBoth : MultiLevelCache := ⟨true, true, 1, true, fiveMinutes, fiveMinutes, fiveMinutes⟩

/-- The instance built by NewMultiLevelCache with only L1 configured
and mode ModeL1Only. -/
def mL1Single : MultiLevelCache := ⟨true, false, 1, false, fiveMinutes, fiveMinutes, fiveMinutes⟩

/-- The participation pair a call computes: mode defaults through
determineCacheLevel, then applyEndpointLevelOverrides (Get and Set
compute exactly this). -/
def callTargets (m : MultiLevelCache) (opts : CacheOptions) : Bool × Bool :=
  applyEndpointLevelOverrides opts m.determineCacheLevel.1 m.determineCacheLevel.2

/-- The per-tier TTL pair a Set call resolves. -/
def resolvedTTLs (m : MultiLevelCache) (opts : CacheOptions) : Int × Int :=
  opts.normalize m.l1DefaultTTL m.l2DefaultTTL

/-! Helper lemmas shared by the claim theorems. -/

/-- Little-endian roundtrip: reading back eight stored bytes recovers
the word modulo 2^64. -/
theorem leToU64_u64toLE (n : Nat) (rest : Bytes) :
    leToU64 (u64toLE n ++ rest) = n % 18446744073709551616 := by
  simp [u64toLE, leToU64]
  omega

/-- The encoded header is exactly eight bytes wide. -/
theorem u64toLE_length (n : Nat) : (u64toLE n).length = 8 := by
  simp [u64toLE]

/-- Inversion of a successful construction: the fields of the returned
instance in terms of the construction inputs. -/
theorem newMLC_ok_fields (l1 l2 s : Bool) (cfg : MultiLevelConfig) (m : MultiLevelCache)
    (h : NewMultiLevelCache l1 l2 s cfg = Except.ok m) :
    s = true ∧ m.hasL1 = l1 ∧ m.hasL2 = l2 ∧ m.allowOverrides = (l1 && l2) ∧
    m.warmupTTL = (if cfg.warmupTTL ≤ 0 then fiveMinutes else cfg.warmupTTL) ∧
    m.l1DefaultTTL = (if cfg.l1DefaultTTL ≤ 0 then fiveMinutes else cfg.l1DefaultTTL) ∧
    m.l2DefaultTTL = (if cfg.l2DefaultTTL ≤ 0 then fiveMinutes else cfg.l2DefaultTTL) ∧
    (m.mode = ModeBothLevels ∨ m.mode = ModeL1Only ∨ m.mode = ModeL2Only) ∧
    (m.mode = ModeBothLevels → l1 = true ∧ l2 = true) ∧
    (m.mode = ModeL1Only → l1 = true ∧ cfg.mode = ModeL1Only) ∧
    (m.mode = ModeL2Only → l2 = true ∧ cfg.mode = ModeL2Only) := by
  cases s <;> cases l1 <;> cases l2 <;>
    by_cases hm1 : cfg.mode = ModeL1Only <;> by_cases hm2 : cfg.mode = ModeL2Only <;>
    by_cases hm0 : cfg.mode = ModeBothLevels <;>
    simp_all [NewMultiLevelCache, ModeL1Only, ModeL2Only, ModeBothLevels] <;>
    (try subst m) <;> simp_all

/-- C5: NewMultiLevelCache returns an error exactly when the
serializer is absent, or a tier required by the requested mode is
absent (both tiers for ModeBothLevels and for any unrecognised mode),
or exactly one tier is present with a mode not matching that single
tier; on success the instance has allowOverrides true iff both tiers
are present, and each non-positive TTL knob (warmup, L1 default, L2
default) is replaced by the 5-minute default. -/
theorem construction_validation (l1 l2 s : Bool) (cfg : MultiLevelConfig) :
    ((∃ e, NewMultiLevelCache l1 l2 s cfg = Except.error e) ↔
      (s = false ∨
       (cfg.mode = ModeL1Only ∧ l1 = false) ∨
       (cfg.mode = ModeL2Only ∧ l2 = false) ∨
       (cfg.mode ≠ ModeL1Only ∧ cfg.mode ≠ ModeL2Only ∧ (l1 = false ∨ l2 = false)) ∨
       (l1 = true ∧ l2 = false ∧ cfg.mode ≠ ModeL1Only) ∨
       (l1 = false ∧ l2 = true ∧ cfg.mode ≠ ModeL2Only))) ∧
    (∀ m, NewMultiLevelCache l1 l2 s cfg = Except.ok m →
      m.allowOverrides = (l1 && l2) ∧
      m.warmupTTL = (if cfg.warmupTTL ≤ 0 then fiveMinutes else cfg.warmupTTL) ∧
      m.l1DefaultTTL = (if cfg.l1DefaultTTL ≤ 0 then fiveMinutes else cfg.l1DefaultTTL) ∧
      m.l2DefaultTTL = (if cfg.l2DefaultTTL ≤ 0 then fiveMinutes else cfg.l2DefaultTTL)) := by
  constructor
  · cases s <;> cases l1 <;> cases l2 <;>
      by_cases hm1 : cfg.mode = ModeL1Only <;> by_cases hm2 : cfg.mode = ModeL2Only <;>
      by_cases hm0 : cfg.mode = ModeBothLevels <;>
      simp_all [NewMultiLevelCache, ModeL1Only, ModeL2Only, ModeBothLevels]
  · intro m h
    obtain ⟨_, _, _, h4, h5, h6, h7, _⟩ := newMLC_ok_fields l1 l2 s cfg m h
    exact ⟨h4, h5, h6, h7⟩

/-- C5 witness: a concrete successful construction (both tiers, zero
config) has allowOverrides true and all three TTLs defaulted, and a
concrete half-configured construction (only L1, default mode) fails. -/
theorem construction_validation_witness :
    (mBoth0.allowOverrides = (true && true) ∧
     mBoth0.warmupTTL = (if (0 : Int) ≤ 0 then fiveMinutes else 0) ∧
     mBoth0.l1DefaultTTL = (if (0 : Int) ≤ 0 then fiveMinutes else 0) ∧
     mBoth0.l2DefaultTTL = (if (0 : Int) ≤ 0 then fiveMinutes else 0)) ∧
    (∃ e, NewMultiLevelCache true false true ⟨0, 0, 0, 0⟩ = Except.error e) :=
  ⟨(construction_validation true true true ⟨0, 0, 0, 0⟩).2 mBoth0 (by rfl),
   (construction_validation true false true ⟨0, 0, 0, 0⟩).1.mpr (by decide)⟩

/-- C4: Delete invokes the tier delete on every configured tier
regardless of mode; an L1 delete failure does not prevent the L2
delete from being attempted; the returned error is the first error
encountered across the tiers, and nil is returned exactly when every
attempted tier delete succeeded. -/
theorem delete_all_tiers {σ1 σ2 : Type} (m : MultiLevelCache)
    (t1 : TierOps σ1) (t2 : TierOps σ2) (s1 : σ1) (s2 : σ2) (key : String) :
    (m.hasL1 = true → Effect.l1Del key ∈ (m.delete t1 t2 s1 s2 key).2.2.2) ∧
    (m.hasL2 = true → Effect.l2Del key ∈ (m.delete t1 t2 s1 s2 key).2.2.2) ∧
    ((m.delete t1 t2 s1 s2 key).1 =
      (match (if m.hasL1 = true then (t1.del s1 key).2 else none) with
       | some e => some e
       | none => (if m.hasL2 = true then (t2.del s2 key).2 else none))) ∧
    ((m.delete t1 t2 s1 s2 key).1 = none ↔
      ((m.hasL1 = true → (t1.del s1 key).2 = none) ∧
       (m.hasL2 = true → (t2.del s2 key).2 = none))) := by
  cases h1 : m.hasL1 <;> cases h2 : m.hasL2 <;>
    cases hd1 : (t1.del s1 key).2 <;> cases hd2 : (t2.del s2 key).2 <;>
    simp_all [MultiLevelCache.delete]

/-- C4 witness: at a concrete instance with both tiers, a failing L1
delete and a succeeding L2 delete, both tier deletes are attempted and
the L1 error is returned. -/
theorem delete_all_tiers_witness :
    Effect.l1Del "k" ∈
      (mBoth0.delete (delTierOps (some (Err.msg "x"))) (delTierOps none) () () "k").2.2.2 ∧
    Effect.l2Del "k" ∈
      (mBoth0.delete (delTierOps (some (Err.msg "x"))) (delTierOps none) () () "k").2.2.2 ∧
    (mBoth0.delete (delTierOps (some (Err.msg "x"))) (delTierOps none) () () "k").1 =
      some (Err.msg "x") :=
  ⟨(delete_all_tiers mBoth0 (delTierOps (some (Err.msg "x"))) (delTierOps none) () () "k").1 rfl,
   (delete_all_tiers mBoth0 (delTierOps (some (Err.msg "x"))) (delTierOps none) () () "k").2.1 rfl,
   ((delete_all_tiers mBoth0 (delTierOps (some (Err.msg "x"))) (delTierOps none) () () "k").2.2.1).trans
     (by decide)⟩

/-- C2: for a Set call that reaches the write phase (override guard
passes, marshal succeeds, targeted tiers configured), when both tiers
are targeted the call returns a non-nil error iff both tier writes
failed, and that error is the combined error naming both failures;
when exactly one tier is targeted the call returns exactly that
tier's write error. In particular a failed L1 write with a successful
L2 write (both targeted) yields a nil error. -/
theorem set_error_aggregation {σ1 σ2 α : Type} (m : MultiLevelCache)
    (t1 : TierOps σ1) (t2 : TierOps σ2) (ser : Serializer α)
    (s1 : σ1) (s2 : σ2) (key : String) (v : α) (opts : CacheOptions)
    (data : Bytes)
    (hov : m.allowOverrides = true ∨ (opts.targetL1 = none ∧ opts.targetL2 = none))
    (hmar : ser.marshal v = Except.ok data)
    (hc1 : (callTargets m opts).1 = true → m.hasL1 = true)
    (hc2 : (callTargets m opts).2 = true → m.hasL2 = true) :
    ((callTargets m opts).1 = true ∧ (callTargets m opts).2 = true →
      (((m.set t1 t2 ser s1 s2 key v opts).1 ≠ none ↔
        (t1.set s1 key data (resolvedTTLs m opts).1).2 ≠ none ∧
        (t2.set s2 key data (resolvedTTLs m opts).2).2 ≠ none) ∧
       (∀ a b, (t1.set s1 key data (resolvedTTLs m opts).1).2 = some a →
        (t2.set s2 key data (resolvedTTLs m opts).2).2 = some b →
        (m.set t1 t2 ser s1 s2 key v opts).1 = some (Err.bothLevelsFailed a b)))) ∧
    ((callTargets m opts).1 = true ∧ (callTargets m opts).2 = false →
      (m.set t1 t2 ser s1 s2 key v opts).1 = (t1.set s1 key data (resolvedTTLs m opts).1).2) ∧
    ((callTargets m opts).1 = false ∧ (callTargets m opts).2 = true →
      (m.set t1 t2 ser s1 s2 key v opts).1 = (t2.set s2 key data (resolvedTTLs m opts).2).2) := by
  cases hA : m.allowOverrides <;>
    cases hT1 : (callTargets m opts).1 <;> cases hT2 : (callTargets m opts).2 <;>
    cases hw1 : (t1.set s1 key data (resolvedTTLs m opts).1).2 <;>
    cases hw2 : (t2.set s2 key data (resolvedTTLs m opts).2).2 <;>
    simp_all [MultiLevelCache.set, callTargets, resolvedTTLs, hmar]

/-- C2 witness: concrete both-tier instance; L1 write fails, L2 write
succeeds, Set returns nil; and a single-target call returns the L1
error directly. -/
theorem set_error_aggregation_witness :
    (mBoth0.set (constTierOps (Except.ok none) (some (Err.msg "x")))
      (constTierOps (Except.ok none) none) natSerializer () () "k" 7
      CacheOptions.empty).1 = none := by
  have h := ((set_error_aggregation mBoth0
    (constTierOps (Except.ok none) (some (Err.msg "x")))
    (constTierOps (Except.ok none) none) natSerializer () () "k" 7
    CacheOptions.empty [7] (Or.inl rfl) rfl (fun _ => rfl) (fun _ => rfl)).1
    (by decide)).1
  by_contra hne
  exact (by decide :
    ¬(((constTierOps (Except.ok none) (some (Err.msg "x"))).set () "k" [7]
        (resolvedTTLs mBoth0 CacheOptions.empty).1).2 ≠ none ∧
      ((constTierOps (Except.ok none) none).set () "k" [7]
        (resolvedTTLs mBoth0 CacheOptions.empty).2).2 ≠ none)) (h.mp hne)

/-- Shape of the effect trace of a Set call: empty (override guard),
marshal only (marshal failure or target validation failure), or
marshal followed by the writes to exactly the targeted tiers, each
carrying the corresponding resolved TTL. -/
theorem set_effects_shape {σ1 σ2 α : Type} (m : MultiLevelCache)
    (t1 : TierOps σ1) (t2 : TierOps σ2) (ser : Serializer α)
    (s1 : σ1) (s2 : σ2) (key : String) (v : α) (opts : CacheOptions) :
    (m.set t1 t2 ser s1 s2 key v opts).2.2.2 = [] ∨
    (m.set t1 t2 ser s1 s2 key v opts).2.2.2 = [Effect.serMarshal] ∨
    (∃ data, ser.marshal v = Except.ok data ∧
      (m.set t1 t2 ser s1 s2 key v opts).2.2.2 = Effect.serMarshal ::
        ((if (callTargets m opts).1 = true then
            [Effect.l1Set key data (resolvedTTLs m opts).1] else []) ++
         (if (callTargets m opts).2 = true then
            [Effect.l2Set key data (resolvedTTLs m opts).2] else []))) := by
  simp only [MultiLevelCache.set]
  split
  · exact Or.inl rfl
  · cases hm : ser.marshal v with
    | error e => simp
    | ok data =>
      simp only []
      split
      · simp
      · split
        · simp
        · split
          · simp
          · refine Or.inr (Or.inr ⟨data, rfl, ?_⟩)
            cases hT1 : (callTargets m opts).1 <;> cases hT2 : (callTargets m opts).2 <;>
              simp_all [callTargets, resolvedTTLs]

/-- C7: on any constructed instance, each Set call resolves the TTL
per tier independently as the call-level override when positive and
the instance default otherwise, both resolved TTLs are strictly
positive, and every TTL handed to a tier store by the Set call is the
corresponding resolved TTL. -/
theorem ttl_resolution (l1 l2 : Bool) (cfg : MultiLevelConfig) (m : MultiLevelCache)
    (h : NewMultiLevelCache l1 l2 true cfg = Except.ok m) (opts : CacheOptions) :
    (resolvedTTLs m opts).1 = (if 0 < opts.l1TTL then opts.l1TTL else m.l1DefaultTTL) ∧
    (resolvedTTLs m opts).2 = (if 0 < opts.l2TTL then opts.l2TTL else m.l2DefaultTTL) ∧
    0 < (resolvedTTLs m opts).1 ∧ 0 < (resolvedTTLs m opts).2 ∧
    (∀ {σ1 σ2 α : Type} (t1 : TierOps σ1) (t2 : TierOps σ2) (ser : Serializer α)
      (s1 : σ1) (s2 : σ2) (key : String) (v : α) (data : Bytes) (ttl : Int),
      (Effect.l1Set key data ttl ∈ (m.set t1 t2 ser s1 s2 key v opts).2.2.2 →
        ttl = (resolvedTTLs m opts).1) ∧
      (Effect.l2Set key data ttl ∈ (m.set t1 t2 ser s1 s2 key v opts).2.2.2 →
        ttl = (resolvedTTLs m opts).2)) := by
  obtain ⟨-, -, -, -, -, h6, h7, -⟩ := newMLC_ok_fields l1 l2 true cfg m h
  have p1 : 0 < m.l1DefaultTTL := by rw [h6]; split <;> simp_all [fiveMinutes]
  have p2 : 0 < m.l2DefaultTTL := by rw [h7]; split <;> simp_all [fiveMinutes]
  refine ⟨?_, ?_, ?_, ?_, ?_⟩
  · simp only [resolvedTTLs, CacheOptions.normalize]
    split_ifs <;> omega
  · simp only [resolvedTTLs, CacheOptions.normalize]
    split_ifs <;> omega
  · simp only [resolvedTTLs, CacheOptions.normalize]
    split_ifs <;> omega
  · simp only [resolvedTTLs, CacheOptions.normalize]
    split_ifs <;> omega
  · intro σ1 σ2 α t1 t2 ser s1 s2 key v data ttl
    rcases set_effects_shape m t1 t2 ser s1 s2 key v opts with hE | hE | ⟨d0, hm0, hE⟩ <;>
      refine ⟨fun hmem => ?_, fun hmem => ?_⟩ <;> rw [hE] at hmem <;>
      (try split_ifs at hmem) <;> simp_all

/-- C7 witness: at a concrete instance and options with a positive L1
override and no L2 override, the resolved pair is the override and the
default, both positive, and the TTL in the concrete L1 write effect is
the resolved L1 TTL. -/
theorem ttl_resolution_witness :
    (resolvedTTLs mBoth0 ⟨none, none, 7, 0⟩).1 = 7 ∧
    (resolvedTTLs mBoth0 ⟨none, none, 7, 0⟩).2 = fiveMinutes ∧
    (0 : Int) < (resolvedTTLs mBoth0 ⟨none, none, 7, 0⟩).1 ∧
    (0 : Int) < (resolvedTTLs mBoth0 ⟨none, none, 7, 0⟩).2 ∧
    (7 : Int) = (resolvedTTLs mBoth0 ⟨none, none, 7, 0⟩).1 := by
  have h := ttl_resolution true true ⟨0, 0, 0, 0⟩ mBoth0 (by rfl) ⟨none, none, 7, 0⟩
  refine ⟨h.1.trans (by decide), h.2.1.trans (by decide), h.2.2.1, h.2.2.2.1, ?_⟩
  exact (h.2.2.2.2 (constTierOps (Except.ok none) none) (constTierOps (Except.ok none) none)
    natSerializer () () "k" 5 [5] 7).1 (by decide)

/-- C6: when overrides are not allowed and either target flag is set,
Get and Set fail with the override-not-allowed error before touching
any tier store or the serializer (empty effect trace, states
unchanged); conversely on an instance with both tiers configured, Set
with TargetL1=true and TargetL2=false performs exactly the marshal
and the L1 write, and returns the L1 write error. -/
theorem override_semantics {σ1 σ2 α : Type} (m : MultiLevelCache)
    (t1 : TierOps σ1) (t2 : TierOps σ2) (ser : Serializer α)
    (s1 : σ1) (s2 : σ2) (key : String) (v : α) (opts : CacheOptions)
    (a b : Int) (data : Bytes) :
    (m.allowOverrides = false → (opts.targetL1 ≠ none ∨ opts.targetL2 ≠ none) →
      m.get t1 t2 ser s1 s2 key opts =
        (⟨false, some errOverrideNotAllowed, none⟩, s1, s2, []) ∧
      m.set t1 t2 ser s1 s2 key v opts = (some errOverrideNotAllowed, s1, s2, [])) ∧
    (m.hasL1 = true → m.hasL2 = true → m.allowOverrides = true →
      ser.marshal v = Except.ok data →
      (m.set t1 t2 ser s1 s2 key v ⟨some true, some false, a, b⟩).2.2.2 =
        [Effect.serMarshal,
         Effect.l1Set key data (resolvedTTLs m ⟨some true, some false, a, b⟩).1] ∧
      (m.set t1 t2 ser s1 s2 key v ⟨some true, some false, a, b⟩).1 =
        (t1.set s1 key data (resolvedTTLs m ⟨some true, some false, a, b⟩).1).2) := by
  constructor
  · intro hno hopt
    have hs : opts.targetL1.isSome = true ∨ opts.targetL2.isSome = true := by
      rcases hopt with h | h
      · exact Or.inl (Option.isSome_iff_ne_none.mpr h)
      · exact Or.inr (Option.isSome_iff_ne_none.mpr h)
    constructor <;> simp [MultiLevelCache.get, MultiLevelCache.set, hno, hs]
  · intro h1 h2 hA hm
    cases hw : (t1.set s1 key data (resolvedTTLs m ⟨some true, some false, a, b⟩).1).2 <;>
      simp_all [MultiLevelCache.set, applyEndpointLevelOverrides, resolvedTTLs]

/-- C6 witness: the single-tier instance rejects an override call with
an empty trace, and the both-tier instance with TargetL1=true,
TargetL2=false writes only to L1. -/
theorem override_semantics_witness :
    (mL1Single.get (constTierOps (Except.ok none) none) (constTierOps (Except.ok none) none)
        natSerializer () () "k" ⟨some true, none, 0, 0⟩ =
      (⟨false, some errOverrideNotAllowed, none⟩, (), (), []) ∧
     mL1Single.set (constTierOps (Except.ok none) none) (constTierOps (Except.ok none) none)
        natSerializer () () "k" 7 ⟨some true, none, 0, 0⟩ =
      (some errOverrideNotAllowed, (), (), [])) ∧
    (mBoth0.set (constTierOps (Except.ok none) none) (constTierOps (Except.ok none) none)
        natSerializer () () "k" 7 ⟨some true, some false, 0, 0⟩).2.2.2 =
      [Effect.serMarshal,
       Effect.l1Set "k" [7] (resolvedTTLs mBoth0 ⟨some true, some false, 0, 0⟩).1] :=
  ⟨(override_semantics mL1Single (constTierOps (Except.ok none) none)
      (constTierOps (Except.ok none) none) natSerializer () () "k" 7
      ⟨some true, none, 0, 0⟩ 0 0 [7]).1 rfl (Or.inl (by decide)),
   ((override_semantics mBoth0 (constTierOps (Except.ok none) none)
      (constTierOps (Except.ok none) none) natSerializer () () "k" 7
      ⟨some true, some false, 0, 0⟩ 0 0 [7]).2 rfl rfl rfl rfl).1⟩

/-- C3: on a Get call that passes the override and target guards,
misses L1 (when L1 is checked) and hits L2 with a payload that
decodes, the call returns found with the decoded value regardless of
the warmup write outcome, and the warmup write of the raw pre-decode
payload into L1 with the warmup TTL occurs exactly when checkL1 is
true, L1 is configured, the mode is ModeBothLevels and the caller set
no explicit L1 override. -/
theorem warmup_semantics {σ1 σ2 α : Type} (m : MultiLevelCache)
    (t1 : TierOps σ1) (t2 : TierOps σ2) (ser : Serializer α)
    (s1 : σ1) (s2 : σ2) (key : String) (opts : CacheOptions)
    (data : Bytes) (v : α)
    (hguard : m.allowOverrides = true ∨ (opts.targetL1 = none ∧ opts.targetL2 = none))
    (hc1 : (callTargets m opts).1 = true → m.hasL1 = true)
    (hc2t : (callTargets m opts).2 = true)
    (hL2 : m.hasL2 = true)
    (hmiss : (t1.get s1 key).2 = Except.ok none)
    (hhit : (t2.get s2 key).2 = Except.ok (some data))
    (hdec : ser.unmarshal data = Except.ok v) :
    (m.get t1 t2 ser s1 s2 key opts).1 = ⟨true, none, some v⟩ ∧
    (Effect.l1Set key data m.warmupTTL ∈ (m.get t1 t2 ser s1 s2 key opts).2.2.2 ↔
      ((callTargets m opts).1 = true ∧ m.hasL1 = true ∧
       m.mode = ModeBothLevels ∧ opts.targetL1 = none)) := by
  cases hA : m.allowOverrides <;>
    cases hT1 : (callTargets m opts).1 <;>
    cases hH1 : m.hasL1 <;>
    cases hg1 : t1.get s1 key <;> cases hg2 : t2.get s2 key <;>
    by_cases hmode : m.mode = ModeBothLevels <;>
    by_cases ho1 : opts.targetL1 = none <;>
    simp_all [MultiLevelCache.get, MultiLevelCache.getL2Phase, callTargets]

/-- C3 witness: a concrete BothLevels Get with an L1 miss, an L2 hit
and a failing warmup write still returns the decoded value, and the
warmup effect is present. -/
theorem warmup_semantics_witness :
    (mBoth0.get (constTierOps (Except.ok none) (some (Err.msg "warmfail")))
      (constTierOps (Except.ok (some [7])) none) natSerializer () () "k"
      CacheOptions.empty).1 = ⟨true, none, some 7⟩ ∧
    Effect.l1Set "k" [7] mBoth0.warmupTTL ∈
      (mBoth0.get (constTierOps (Except.ok none) (some (Err.msg "warmfail")))
        (constTierOps (Except.ok (some [7])) none) natSerializer () () "k"
        CacheOptions.empty).2.2.2 :=
  have h := warmup_semantics mBoth0
    (constTierOps (Except.ok none) (some (Err.msg "warmfail")))
    (constTierOps (Except.ok (some [7])) none) natSerializer () () "k"
    CacheOptions.empty [7] 7 (Or.inl rfl) (fun _ => rfl) rfl rfl rfl rfl rfl
  ⟨h.1, h.2.mpr (by decide)⟩

/-- C1: on any constructed ModeBothLevels instance, with faithful
map-backed tier stores and a serializer that decodes its own encoding
of v back to v, Set(k, v, empty options) returns nil and an
immediately following Get(k, empty options) returns found with no
error and v decoded into the destination. -/
theorem set_get_roundtrip (l1 l2 : Bool) (cfg : MultiLevelConfig) (m : MultiLevelCache)
    {α : Type} (ser : Serializer α) (s1 s2 : Store) (key : String) (v : α) (data : Bytes)
    (h : NewMultiLevelCache l1 l2 true cfg = Except.ok m)
    (hmode : m.mode = ModeBothLevels)
    (hmar : ser.marshal v = Except.ok data)
    (hunmar : ser.unmarshal data = Except.ok v) :
    (m.set mapTierOps mapTierOps ser s1 s2 key v CacheOptions.empty).1 = none ∧
    (m.get mapTierOps mapTierOps ser
      (m.set mapTierOps mapTierOps ser s1 s2 key v CacheOptions.empty).2.1
      (m.set mapTierOps mapTierOps ser s1 s2 key v CacheOptions.empty).2.2.1
      key CacheOptions.empty).1 = ⟨true, none, some v⟩ := by
  obtain ⟨-, hL1, hL2, -, -, -, -, -, hboth, -, -⟩ := newMLC_ok_fields l1 l2 true cfg m h
  obtain ⟨hl1, hl2⟩ := hboth hmode
  subst hl1 hl2
  simp [MultiLevelCache.set, MultiLevelCache.get, mapTierOps, Store.write,
    CacheOptions.empty, applyEndpointLevelOverrides, MultiLevelCache.determineCacheLevel,
    hmode, hmar, hunmar, hL1, hL2]

/-- C1 witness: the concrete both-tier instance with the natural
serializer round-trips the value 7 under key k from empty stores. -/
theorem set_get_roundtrip_witness :
    (mBoth0.set mapTierOps mapTierOps natSerializer Store.empty Store.empty "k" 7
      CacheOptions.empty).1 = none ∧
    (mBoth0.get mapTierOps mapTierOps natSerializer
      (mBoth0.set mapTierOps mapTierOps natSerializer Store.empty Store.empty "k" 7
        CacheOptions.empty).2.1
      (mBoth0.set mapTierOps mapTierOps natSerializer Store.empty Store.empty "k" 7
        CacheOptions.empty).2.2.1
      "k" CacheOptions.empty).1 = ⟨true, none, some 7⟩ :=
  set_get_roundtrip true true ⟨0, 0, 0, 0⟩ mBoth0 natSerializer Store.empty Store.empty
    "k" 7 [7] rfl rfl rfl rfl

/-- The L2 phase of Get never writes to L2 (warmup only ever writes
L1). -/
theorem getL2Phase_no_l2set {σ1 σ2 α : Type} (m : MultiLevelCache)
    (t1 : TierOps σ1) (t2 : TierOps σ2) (ser : Serializer α)
    (s1 : σ1) (s2 : σ2) (key : String) (opts : CacheOptions) (c1 c2 : Bool)
    (k : String) (d : Bytes) (ttl : Int) :
    Effect.l2Set k d ttl ∉ (m.getL2Phase t1 t2 ser s1 s2 key opts c1 c2).2.2.2 := by
  simp only [MultiLevelCache.getL2Phase]
  split
  · simp
  · cases hg2 : t2.get s2 key with
    | mk s2a r2 =>
      cases r2 with
      | error e => simp
      | ok o =>
        cases o with
        | none => simp
        | some data =>
          cases hu : ser.unmarshal data with
          | error e => simp [hu]
          | ok v =>
            simp only [hu]
            split <;> simp

/-- When checkL2 is false the L2 phase is an immediate effect-free
miss. -/
theorem getL2Phase_not_checked {σ1 σ2 α : Type} (m : MultiLevelCache)
    (t1 : TierOps σ1) (t2 : TierOps σ2) (ser : Serializer α)
    (s1 : σ1) (s2 : σ2) (key : String) (opts : CacheOptions) (c1 c2 : Bool)
    (hc : c2 = false) :
    m.getL2Phase t1 t2 ser s1 s2 key opts c1 c2 = (⟨false, none, none⟩, s1, s2, []) := by
  simp [MultiLevelCache.getL2Phase, hc]

/-- A Get call never writes to L2. -/
theorem get_never_writes_l2 {σ1 σ2 α : Type} (m : MultiLevelCache)
    (t1 : TierOps σ1) (t2 : TierOps σ2) (ser : Serializer α)
    (s1 : σ1) (s2 : σ2) (key : String) (opts : CacheOptions)
    (k : String) (d : Bytes) (ttl : Int) :
    Effect.l2Set k d ttl ∉ (m.get t1 t2 ser s1 s2 key opts).2.2.2 := by
  simp only [MultiLevelCache.get]
  split
  · simp
  · split
    · simp
    · split
      · simp
      · split
        · simp
        · split
          · cases hg1 : t1.get s1 key with
            | mk s1a r1 =>
              cases r1 with
              | error e => simp
              | ok o =>
                cases o with
                | none =>
                  have hphase := getL2Phase_no_l2set m t1 t2 ser s1a s2 key opts
                    (callTargets m opts).1 (callTargets m opts).2 k d ttl
                  simp_all [callTargets]
                | some data => cases hu : ser.unmarshal data <;> simp [hu]
          · exact getL2Phase_no_l2set m t1 t2 ser s1 s2 key opts
              (callTargets m opts).1 (callTargets m opts).2 k d ttl

/-- A Get call whose computed participation pair does not include L2
never reads L2. -/
theorem get_no_l2read_when_unchecked {σ1 σ2 α : Type} (m : MultiLevelCache)
    (t1 : TierOps σ1) (t2 : TierOps σ2) (ser : Serializer α)
    (s1 : σ1) (s2 : σ2) (key : String) (opts : CacheOptions)
    (hc2 : (callTargets m opts).2 = false) (k : String) :
    Effect.l2Get k ∉ (m.get t1 t2 ser s1 s2 key opts).2.2.2 := by
  simp only [MultiLevelCache.get]
  split
  · simp
  · split
    · simp
    · split
      · simp
      · split
        · simp
        · split
          · cases hg1 : t1.get s1 key with
            | mk s1a r1 =>
              cases r1 with
              | error e => simp
              | ok o =>
                cases o with
                | none =>
                  have hphase := getL2Phase_not_checked m t1 t2 ser s1a s2 key opts
                    (callTargets m opts).1 (callTargets m opts).2 (by simpa [callTargets] using hc2)
                  simp_all [callTargets]
                | some data => cases hu : ser.unmarshal data <;> simp [hu]
          · have hphase := getL2Phase_not_checked m t1 t2 ser s1 s2 key opts
              (callTargets m opts).1 (callTargets m opts).2 (by simpa [callTargets] using hc2)
            simp_all [callTargets]

/-- A successful construction carries the requested mode through
(after normalising unknown modes to ModeBothLevels). -/
theorem newMLC_ok_mode (l1 l2 s : Bool) (cfg : MultiLevelConfig) (m : MultiLevelCache)
    (h : NewMultiLevelCache l1 l2 s cfg = Except.ok m) :
    (cfg.mode = ModeL1Only → m.mode = ModeL1Only) ∧
    (cfg.mode = ModeL2Only → m.mode = ModeL2Only) ∧
    (cfg.mode ≠ ModeL1Only → cfg.mode ≠ ModeL2Only → m.mode = ModeBothLevels) := by
  cases s <;> cases l1 <;> cases l2 <;>
    by_cases hm1 : cfg.mode = ModeL1Only <;> by_cases hm2 : cfg.mode = ModeL2Only <;>
    by_cases hm0 : cfg.mode = ModeBothLevels <;>
    simp_all [NewMultiLevelCache, ModeL1Only, ModeL2Only, ModeBothLevels] <;>
    (try subst m) <;> simp_all

/-- C9 counterexample: constructing with Mode=L1Only and both tiers
succeeds, yet a Get whose options set TargetL2=true reads from the
extra L2 store (and serves the hit from it): the claim that every
subsequent Get never reads from L2 is false on this input. -/
theorem l1only_get_reads_l2_counterexample :
    NewMultiLevelCache true true true ⟨1, 0, 0, 0⟩ = Except.ok mL1OnlyBoth ∧
    (mL1OnlyBoth.get mapTierOps mapTierOps natSerializer Store.empty
      (Store.empty.write "k" [7]) "k" ⟨none, some true, 0, 0⟩).1.found = true ∧
    Effect.l2Get "k" ∈
      (mL1OnlyBoth.get mapTierOps mapTierOps natSerializer Store.empty
        (Store.empty.write "k" [7]) "k" ⟨none, some true, 0, 0⟩).2.2.2 :=
  ⟨by rfl, by decide, by decide⟩

/-- C9 (amended): constructing with Mode=L1Only and both tiers
supplied succeeds, and on the resulting instance a Get never writes
to the extra L2 store, and never reads from it unless the caller
explicitly sets TargetL2=true on that call — the mode, not tier
presence, governs default participation. -/
theorem mode_governs_l2_participation (cfg : MultiLevelConfig)
    (hcfg : cfg.mode = ModeL1Only) :
    (∃ m, NewMultiLevelCache true true true cfg = Except.ok m) ∧
    (∀ m, NewMultiLevelCache true true true cfg = Except.ok m →
      ∀ (σ1 σ2 α : Type) (t1 : TierOps σ1) (t2 : TierOps σ2) (ser : Serializer α)
        (s1 : σ1) (s2 : σ2) (key : String) (opts : CacheOptions),
        (∀ k d ttl, Effect.l2Set k d ttl ∉ (m.get t1 t2 ser s1 s2 key opts).2.2.2) ∧
        (opts.targetL2 ≠ some true →
          ∀ k, Effect.l2Get k ∉ (m.get t1 t2 ser s1 s2 key opts).2.2.2)) := by
  constructor
  · simp only [NewMultiLevelCache, hcfg]
    simp [ModeL1Only]
  · intro m h σ1 σ2 α t1 t2 ser s1 s2 key opts
    have hmode : m.mode = ModeL1Only := (newMLC_ok_mode true true true cfg m h).1 hcfg
    refine ⟨fun k d ttl => get_never_writes_l2 m t1 t2 ser s1 s2 key opts k d ttl,
      fun hno k => ?_⟩
    apply get_no_l2read_when_unchecked
    cases ho : opts.targetL2 with
    | none =>
      simp [callTargets, applyEndpointLevelOverrides, MultiLevelCache.determineCacheLevel,
        hmode, ho, ModeL1Only, ModeBothLevels, ModeL2Only]
    | some b =>
      cases b with
      | true => exact absurd ho hno
      | false =>
        simp [callTargets, applyEndpointLevelOverrides, MultiLevelCache.determineCacheLevel,
          hmode, ho, ModeL1Only, ModeBothLevels, ModeL2Only]

/-- C9 witness: on the concrete L1Only-with-L2 instance, a Get with
default options does not read L2 even though L2 holds the key. -/
theorem mode_governs_l2_participation_witness :
    Effect.l2Get "k" ∉
      (mL1OnlyBoth.get mapTierOps mapTierOps natSerializer Store.empty
        (Store.empty.write "k" [7]) "k" CacheOptions.empty).2.2.2 :=
  ((mode_governs_l2_participation ⟨1, 0, 0, 0⟩ rfl).2 mL1OnlyBoth (by rfl)
    Store Store Nat mapTierOps mapTierOps natSerializer Store.empty
    (Store.empty.write "k" [7]) "k" CacheOptions.empty).2 (by decide) "k"

/-- Decoding an encoded entry at read time t: a miss exactly when the
TTL was positive and the expiry instant now+ttl lies strictly before
t; otherwise the original payload. Holds whenever the clock is
non-negative and the expiry fits in an int64. -/
theorem decodeEntry_encodeEntry (payload : Bytes) (ttl now t : Int)
    (h0 : 0 ≤ now) (hr : now + ttl < 9223372036854775808) :
    decodeEntry (encodeEntry payload ttl now) t =
      (if 0 < ttl ∧ now + ttl < t then none else some payload) := by
  have hlen : (encodeEntry payload ttl now).length = 8 + payload.length := by
    simp [encodeEntry, u64toLE_length]
  have hdrop : (encodeEntry payload ttl now).drop 8 = payload := by
    have h8 : (u64toLE (int64ToU64 (if 0 < ttl then now + ttl else 0))).length = 8 :=
      u64toLE_length _
    simp [encodeEntry, List.drop_append_of_le_length, h8]
  by_cases hp : 0 < ttl
  · have he0 : (0 : Int) ≤ now + ttl := by omega
    have hlt : now + ttl < 18446744073709551616 := by omega
    have hmod : (now + ttl) % 18446744073709551616 = now + ttl :=
      Int.emod_emod_of_dvd _ (dvd_refl _) ▸ Int.emod_eq_of_lt he0 hlt
    have hn : int64ToU64 (now + ttl) = (now + ttl).toNat := by
      simp [int64ToU64, hmod]
    have hle : leToU64 (encodeEntry payload ttl now) = (now + ttl).toNat := by
      rw [encodeEntry, leToU64_u64toLE, if_pos hp, hn]
      omega
    have hback : u64ToInt64 ((now + ttl).toNat) = now + ttl := by
      have hsmall : (now + ttl).toNat < 9223372036854775808 := by omega
      simp [u64ToInt64, hsmall]
      omega
    simp only [decodeEntry, hlen, hle, hback]
    have hnot : ¬(8 + payload.length < 8) := by omega
    simp only [if_neg hnot]
    by_cases hexp : now + ttl < t
    · have : 0 < now + ttl ∧ now + ttl < t := ⟨by omega, hexp⟩
      simp [this, hp, hexp]
    · have : ¬(0 < now + ttl ∧ now + ttl < t) := fun hc => hexp hc.2
      simp [this, hp, hexp, hdrop]
  · have hn : int64ToU64 (if 0 < ttl then now + ttl else 0) = 0 := by
      simp [int64ToU64, if_neg hp]
    have hle : leToU64 (encodeEntry payload ttl now) = 0 := by
      rw [encodeEntry, leToU64_u64toLE, hn]
    have hnot : ¬(8 + payload.length < 8) := by omega
    simp [decodeEntry, hlen, hle, hnot, u64ToInt64, hp, hdrop]

/-- C8: in the in-process L1 tier, a record stored with a positive TTL
is returned as a hit with the original payload at any read time not
after the expiry instant; once the read time strictly exceeds the
expiry instant the tier reports a clean miss and deletes the stale
record; a record stored with TTL at most zero is a hit at every read
time. -/
theorem bigcache_expiry (s : Store) (key : String) (payload : Bytes) (ttl t0 t1 : Int)
    (h0 : 0 ≤ t0) (hr : t0 + ttl < 9223372036854775808) :
    (0 < ttl →
      (t1 ≤ t0 + ttl →
        BigCache.get (BigCache.set s key payload ttl t0) key t1 =
          ((some payload, true, none), BigCache.set s key payload ttl t0)) ∧
      (t0 + ttl < t1 →
        BigCache.get (BigCache.set s key payload ttl t0) key t1 =
          ((none, false, none), (BigCache.set s key payload ttl t0).remove key))) ∧
    (ttl ≤ 0 →
      BigCache.get (BigCache.set s key payload ttl t0) key t1 =
        ((some payload, true, none), BigCache.set s key payload ttl t0)) := by
  have hlook : (BigCache.set s key payload ttl t0) key = some (encodeEntry payload ttl t0) := by
    simp [BigCache.set, Store.write]
  have hdec := decodeEntry_encodeEntry payload ttl t0 t1 h0 hr
  refine ⟨fun hp => ⟨fun hle => ?_, fun hgt => ?_⟩, fun hnp => ?_⟩
  · have : ¬(0 < ttl ∧ t0 + ttl < t1) := fun hc => by omega
    rw [if_neg this] at hdec
    simp [BigCache.get, hlook, hdec]
  · have : (0 < ttl ∧ t0 + ttl < t1) := ⟨hp, hgt⟩
    rw [if_pos this] at hdec
    simp [BigCache.get, hlook, hdec]
  · have : ¬(0 < ttl ∧ t0 + ttl < t1) := fun hc => by omega
    rw [if_neg this] at hdec
    simp [BigCache.get, hlook, hdec]

/-- C8 witness: a record stored at time 5 with TTL 10 is a hit at the
expiry instant 15, a clean deleting miss at 16, and a record stored
with TTL 0 is a hit at an arbitrarily late time. -/
theorem bigcache_expiry_witness :
    BigCache.get (BigCache.set Store.empty "k" [1, 2] 10 5) "k" 15 =
      ((some [1, 2], true, none), BigCache.set Store.empty "k" [1, 2] 10 5) ∧
    BigCache.get (BigCache.set Store.empty "k" [1, 2] 10 5) "k" 16 =
      ((none, false, none), (BigCache.set Store.empty "k" [1, 2] 10 5).remove "k") ∧
    BigCache.get (BigCache.set Store.empty "k" [1, 2] 0 5) "k" 999999 =
      ((some [1, 2], true, none), BigCache.set Store.empty "k" [1, 2] 0 5) :=
  ⟨((bigcache_expiry Store.empty "k" [1, 2] 10 5 15 (by decide) (by decide)).1
      (by decide)).1 (by decide),
   ((bigcache_expiry Store.empty "k" [1, 2] 10 5 16 (by decide) (by decide)).1
      (by decide)).2 (by decide),
   (bigcache_expiry Store.empty "k" [1, 2] 0 5 999999 (by decide) (by decide)).2
      (by decide)⟩

/-- C10: a stored L1 record shorter than the 8-byte expiry header is
treated as absent: decode yields none and Get deletes the record and
returns a clean miss with no error. -/
theorem short_record_is_miss (s : Store) (key : String) (raw : Bytes) (t : Int)
    (hlen : raw.length < 8) (hkey : s key = some raw) :
    decodeEntry raw t = none ∧
    BigCache.get s key t = ((none, false, none), s.remove key) := by
  have hd : decodeEntry raw t = none := by simp [decodeEntry, hlen]
  exact ⟨hd, by simp [BigCache.get, hkey, hd]⟩

/-- C10 witness: a three-byte record under key k is decoded as absent,
deleted and reported as a clean miss. -/
theorem short_record_is_miss_witness :
    decodeEntry [1, 2, 3] 0 = none ∧
    BigCache.get (Store.empty.write "k" [1, 2, 3]) "k" 0 =
      ((none, false, none), (Store.empty.write "k" [1, 2, 3]).remove "k") :=
  short_record_is_miss (Store.empty.write "k" [1, 2, 3]) "k" [1, 2, 3] 0
    (by decide) (by decide)

end CacheManager
